import Mathlib

/-!
# mauImageServer: the image lifecycle handlers

A shallow embedding of the HTTP handlers of `src/handlers.go` (`search`, `insert`, `hide`,
`delete`) together with `output` of `src/util.go`, and theorems about them.

The handlers are stateful Go code working on three collaborators: the credential checker
(`auth.CheckAuthToken`), the metadata table (`database.*`) and the file system
(`ioutil.WriteFile`, `os.Remove`).  Here a handler is a function from a `State` (table and
files) to the next `State` and the `ResponseWriter` it filled in.  Everything a handler reads
from the outside world during one call (the verdict of the credential checker, the base64
decoder, content sniffing, the random name, the clock, which storage calls fail, and which
file a path names) is gathered in an `Env` given to that call.  Logging is not modelled.
-/

namespace MauImageServer

/-! ## Data model -/

/-- Raw file contents, one number below 256 per byte. -/
abbrev Bytes := List Nat

/-- `InsertForm` of `handlers.go`; a field missing from the JSON body is the empty string
(or `false`). -/
structure InsertForm where
  Image : String
  ImageName : String
  ImageFormat : String
  Client : String
  Username : String
  AuthToken : String
  Hidden : Bool
deriving DecidableEq, Repr

/-- `DeleteForm` of `handlers.go`. -/
structure DeleteForm where
  ImageName : String
  Username : String
  AuthToken : String
deriving DecidableEq, Repr

/-- `HideForm` of `handlers.go`. -/
structure HideForm where
  ImageName : String
  Hidden : Bool
  Username : String
  AuthToken : String
deriving DecidableEq, Repr

/-- `SearchForm` of `handlers.go`; the two times are `int64` in the source and are only
compared with zero and passed on, so they are integers here. -/
structure SearchForm where
  Format : String
  Uploader : String
  Client : String
  MinTime : Int
  MaxTime : Int
deriving DecidableEq, Repr

/-- `InsertResponse` of `handlers.go`, the JSON body of every structured outcome. -/
structure InsertResponse where
  Success : Bool
  Status : String
  StatusReadable : String
deriving DecidableEq, Repr

/-- Modelled from the spec: the row type of the metadata table lives in the `data` package,
which is not among the sources.  The fields are the attributes of an Image in the data model
(name, format, mimeType, owner, uploaderAddress, client, hidden, timestamp), named after the
fields the handlers read (`img.ImageName`, `img.Format`, `img.Adder`, ...). -/
structure ImageEntry where
  ImageName : String
  Format : String
  MimeType : String
  Adder : String
  AdderIP : String
  Client : String
  Hidden : Bool
  Timestamp : Int
deriving DecidableEq, Repr

/-- The part of `config` the handlers read. -/
structure Config where
  RequireAuth : Bool
  AllowSearch : Bool
  ImageLocation : String
deriving DecidableEq, Repr

/-- How a call of `ioutil.WriteFile` ends: it succeeds, or it fails, either before touching
the file (`failed none`) or after creating or truncating it, leaving the bytes written so
far (`failed (some written)`). -/
inductive WriteResult where
  | ok
  | failed (left : Option Bytes)
deriving DecidableEq, Repr

/-- What one handler call observes of the outside world. -/
structure Env where
  /-- `auth.CheckAuthToken(username, token) == nil`. -/
  CheckAuthToken : String → String → Bool
  /-- `base64.StdEncoding.DecodeString`; `none` is a decoding error. -/
  DecodeString : String → Option Bytes
  /-- `http.DetectContentType`. -/
  DetectContentType : Bytes → String
  /-- The value `ImageName(5)` returns when it is called. -/
  ImageName : String
  /-- `time.Now().Unix()`. -/
  now : Int
  /-- How `ioutil.WriteFile` ends. -/
  WriteFile : WriteResult
  /-- `database.Insert` returns an error. -/
  InsertFails : Bool
  /-- `database.Update` returns an error. -/
  UpdateFails : Bool
  /-- `database.SetHidden` returns an error. -/
  SetHiddenFails : Bool
  /-- `database.Remove` returns an error. -/
  RemoveFails : Bool
  /-- An error of `os.Remove` other than the file being absent, with its message. -/
  osRemoveError : Option String
  /-- The file a path names.  The file system resolves a path before it acts on it, so two
  paths with the same value here are one file. -/
  Resolve : String → String
  /-- `database.Search`; `none` is an error. -/
  Search : String → String → String → Int → Int → Option (List ImageEntry)

/-- The metadata table and the files of the image directory (path and contents). -/
structure State where
  images : List ImageEntry
  files : List (String × Bytes)
deriving DecidableEq, Repr

/-- The state of a fresh installation. -/
def State.empty : State := ⟨[], []⟩

/-- An incoming HTTP request as a handler sees it: the method, the address `getIP` gives,
and the JSON body decoded into the form (`none` when `decoder.Decode` fails). -/
structure Request (α : Type) where
  Method : String
  ip : String
  form : Option α

/-- A POST request whose body decodes to `form`. -/
def Request.post {α : Type} (ip : String) (form : α) : Request α := ⟨"POST", ip, some form⟩

/-! ## The response writer and `output` -/

/-- What has been written to an `http.ResponseWriter`: the status code sent (the first
`WriteHeader` wins, later ones are ignored) and the JSON bodies written, in order. -/
structure ResponseWriter where
  status : Option Nat
  body : List InsertResponse
deriving DecidableEq, Repr

/-- The writer a handler starts with. -/
def ResponseWriter.new : ResponseWriter := ⟨none, []⟩

/-- The call `w.WriteHeader(code)`. -/
def ResponseWriter.WriteHeader (w : ResponseWriter) (code : Nat) : ResponseWriter :=
  match w.status with
  | none => { w with status := some code }
  | some _ => w

/-- The call `w.Write(json)`; it sends status 200 first when no header has been written. -/
def ResponseWriter.Write (w : ResponseWriter) (response : InsertResponse) : ResponseWriter :=
  { status := some (w.status.getD 200), body := w.body ++ [response] }

/-- The function `output` of `util.go`.  Marshalling a struct of one boolean and two strings
cannot fail, so the result `true` is left out and the error branch is dead. -/
def output (w : ResponseWriter) (response : InsertResponse) (status : Nat) : ResponseWriter :=
  (w.WriteHeader status).Write response

/-! ## The metadata table -/

/-- Modelled from the spec: `database.GetOwner` (`findOwner(name) -> owner | none`) is in the
`data` package, which is not among the sources.  The owner of the first row with that name,
and the empty string, which the handlers test with `len(owner) > 0`, when there is none. -/
def GetOwner (images : List ImageEntry) (name : String) : String :=
  match images.find? (fun e => e.ImageName == name) with
  | some e => e.Adder
  | none => ""

/-- Modelled from the spec: `database.Insert` (`insert(Image) -> ok | error`), not among the
sources.  On success a row with the given attributes and the current time is added; uniqueness
of names is not enforced by the store. -/
def dbInsert (env : Env) (images : List ImageEntry)
    (imageName imageFormat mimeType adder adderip client : String) (hidden : Bool) :
    Option (List ImageEntry) :=
  if env.InsertFails then none
  else some (images ++ [⟨imageName, imageFormat, mimeType, adder, adderip, client, hidden,
    env.now⟩])

/-- Modelled from the spec: `database.Update`
(`update(name, format, mimeType, uploaderAddress, client, hidden) -> ok | error`), not among
the sources.  On success the rows of that name get the new attributes and time; the owner
stays. -/
def dbUpdate (env : Env) (images : List ImageEntry)
    (imageName imageFormat mimeType adderip client : String) (hidden : Bool) :
    Option (List ImageEntry) :=
  if env.UpdateFails then none
  else some (images.map fun e =>
    if e.ImageName = imageName then
      { e with Format := imageFormat, MimeType := mimeType, AdderIP := adderip,
               Client := client, Hidden := hidden, Timestamp := env.now }
    else e)

/-- Modelled from the spec: `database.SetHidden` (`setHidden(name, hidden) -> ok | error`),
not among the sources. -/
def dbSetHidden (env : Env) (images : List ImageEntry) (imageName : String) (hidden : Bool) :
    Option (List ImageEntry) :=
  if env.SetHiddenFails then none
  else some (images.map fun e =>
    if e.ImageName = imageName then { e with Hidden := hidden } else e)

/-- Modelled from the spec: `database.Remove` (`remove(name) -> ok | error`), not among the
sources. -/
def dbRemove (env : Env) (images : List ImageEntry) (imageName : String) :
    Option (List ImageEntry) :=
  if env.RemoveFails then none
  else some (images.filter fun e => e.ImageName ≠ imageName)

/-! ## The image directory -/

/-!
The files of a `State` are listed under their resolved paths (the values of `Env.Resolve`),
one entry per file, so that two paths that name one file meet in one entry.
-/

/-- The file `file` (a resolved path) exists. -/
def fileExists (files : List (String × Bytes)) (file : String) : Bool :=
  files.any fun f => f.1 == file

/-- The contents of the file `file` (a resolved path). -/
def readFile (files : List (String × Bytes)) (file : String) : Option Bytes :=
  (files.find? fun f => f.1 == file).map fun f => f.2

/-- The files after the file `file` (a resolved path) has been created or overwritten with
`data`. -/
def putFile (files : List (String × Bytes)) (file : String) (data : Bytes) :
    List (String × Bytes) :=
  (file, data) :: files.filter fun f => f.1 ≠ file

/-- The call `ioutil.WriteFile(path, data, 0644)`: the files afterwards and whether it
returned an error.  The file written is the one the path resolves to. -/
def WriteFile (env : Env) (files : List (String × Bytes)) (path : String) (data : Bytes) :
    List (String × Bytes) × Bool :=
  match env.WriteFile with
  | .ok => (putFile files (env.Resolve path) data, false)
  | .failed none => (files, true)
  | .failed (some written) => (putFile files (env.Resolve path) written, true)

/-- The call `os.Remove(path)`: the files afterwards and the message of the error, if any.
The file removed is the one the path resolves to; removing a file that is not there fails
with `no such file or directory`. -/
def osRemove (env : Env) (files : List (String × Bytes)) (path : String) :
    List (String × Bytes) × Option String :=
  match env.osRemoveError with
  | some msg => (files, some msg)
  | none =>
    if fileExists files (env.Resolve path) then
      (files.filter fun f => f.1 ≠ env.Resolve path, none)
    else (files, some ("remove " ++ path ++ ": no such file or directory"))

/-- The function `strings.HasPrefix`. -/
def HasPrefix (s pre : String) : Bool := pre.data.isPrefixOf s.data

/-- The function `strings.HasSuffix`. -/
def HasSuffix (s suf : String) : Bool := suf.data.isSuffixOf s.data

/-! ## The handlers -/

/-- The path of the blob of an image: `config.ImageLocation+"/"+name+"."+format`. -/
def imagePath (config : Config) (name format : String) : String :=
  config.ImageLocation ++ "/" ++ name ++ "." ++ format

/-- What `search` did: the arguments it passed to `database.Search`, when it got that far,
the status code it sent, and the results it wrote. -/
structure SearchOutcome where
  query : Option SearchForm
  status : Nat
  results : List ImageEntry
deriving DecidableEq, Repr

/-- The handler `search` (handlers.go, lines 79 to 120). -/
def search (config : Config) (env : Env) (r : Request SearchForm) : SearchOutcome :=
  if r.Method ≠ "POST" then ⟨none, 405, []⟩
  else if !config.AllowSearch then ⟨none, 403, []⟩
  else
    match r.form with
    | none => ⟨none, 400, []⟩
    | some sf =>
      if sf.Format = "" ∧ sf.Uploader = "" ∧ sf.Client = "" ∧ sf.MinTime ≤ 0 ∧ sf.MaxTime ≤ 0 then
        ⟨none, 400, []⟩
      else
        let sf : SearchForm :=
          if sf.MinTime ≤ 0 ∧ sf.MaxTime > 0 then { sf with MinTime := 1 }
          else if sf.MinTime > 0 ∧ sf.MaxTime ≤ 0 then { sf with MaxTime := env.now }
          else sf
        match env.Search sf.Format sf.Uploader sf.Client sf.MinTime sf.MaxTime with
        | none => ⟨some sf, 500, []⟩
        | some results => ⟨some sf, 200, results⟩

/-- The form after `insert` has filled out the values that were left empty (handlers.go,
lines 185 to 194): a generated name, the format `png`, the client `Unknown Client`. -/
def fillDefaults (env : Env) (ifr : InsertForm) : InsertForm :=
  let ifr := if ifr.ImageName = "" then { ifr with ImageName := env.ImageName } else ifr
  let ifr := if ifr.ImageFormat = "" then { ifr with ImageFormat := "png" } else ifr
  let ifr := if ifr.Client = "" then { ifr with Client := "Unknown Client" } else ifr
  ifr

/-- The second half of `insert` (handlers.go, lines 227 to 300): the ownership check, the
decoding and sniffing of the payload, the blob write and the metadata write.  It runs with
the form and the writer the first half leaves. -/
def insertStore (config : Config) (env : Env) (st : State) (ip : String) (ifr : InsertForm)
    (w : ResponseWriter) : State × ResponseWriter :=
  let owner := GetOwner st.images ifr.ImageName
  if owner ≠ "" ∧ (owner ≠ ifr.Username ∨ ifr.Username = "anonymous") then
    (st, output w ⟨false, "already-exists",
      "The requested image name is already in use by another user"⟩ 403)
  else
    let replace : Bool := decide (owner ≠ "")
    match env.DecodeString ifr.Image with
    | none => (st, w.WriteHeader 500)
    | some image =>
      let mimeType := env.DetectContentType image
      if !HasPrefix mimeType "image/" then
        (st, output w ⟨false, "invalid-mime",
          "The uploaded data is of an incorrect MIME type."⟩ 415)
      else
        let mimeType := String.mk (mimeType.data.drop 6)
        match WriteFile env st.files (imagePath config ifr.ImageName ifr.ImageFormat) image with
        | (files, true) => ({ st with files := files }, w.WriteHeader 500)
        | (files, false) =>
          if !replace then
            match dbInsert env st.images ifr.ImageName ifr.ImageFormat mimeType ifr.Username ip
                ifr.Client ifr.Hidden with
            | none => ({ st with files := files }, w.WriteHeader 500)
            | some images =>
              (⟨images, files⟩, output w ⟨true, "created",
                "The image was successfully saved with the name " ++ ifr.ImageName⟩ 201)
          else
            match dbUpdate env st.images ifr.ImageName ifr.ImageFormat mimeType ip
                ifr.Client ifr.Hidden with
            | none => ({ st with files := files }, w.WriteHeader 500)
            | some images =>
              (⟨images, files⟩, output w ⟨true, "replaced",
                "The image was successfully saved with the name " ++ ifr.ImageName ++
                ", replacing your previous image with the same name"⟩ 202)

/-- The handler `insert` (handlers.go, lines 166 to 301).  After the `not-logged-in`
response there is no `return` in the source, so control goes on to line 227 with the
username as it was sent. -/
def insert (config : Config) (env : Env) (st : State) (r : Request InsertForm) :
    State × ResponseWriter :=
  let w := ResponseWriter.new
  if r.Method ≠ "POST" then (st, w.WriteHeader 405)
  else
    match r.form with
    | none => (st, w.WriteHeader 400)
    | some ifr =>
      if ifr.Image = "" then (st, w.WriteHeader 400)
      else
        let ifr := fillDefaults env ifr
        if ifr.Username = "" ∨ ifr.AuthToken = "" then
          if config.RequireAuth then
            insertStore config env st r.ip ifr (output w ⟨false, "not-logged-in",
              "This MIS server requires authentication. Please log in or register."⟩ 401)
          else
            insertStore config env st r.ip { ifr with Username := "anonymous" } w
        else if !env.CheckAuthToken ifr.Username ifr.AuthToken then
          (st, output w ⟨false, "invalid-authtoken",
            "Your authentication token was incorrect. Please try logging in again."⟩ 401)
        else
          insertStore config env st r.ip ifr w

/-- The handler `hide` (handlers.go, lines 303 to 376). -/
def hide (env : Env) (st : State) (r : Request HideForm) : State × ResponseWriter :=
  let w := ResponseWriter.new
  if r.Method ≠ "POST" then (st, w.WriteHeader 405)
  else
    match r.form with
    | none => (st, w.WriteHeader 400)
    | some hfr =>
      if hfr.ImageName = "" ∨ hfr.Username = "" ∨ hfr.AuthToken = "" then
        (st, w.WriteHeader 400)
      else if !env.CheckAuthToken hfr.Username hfr.AuthToken then
        (st, output w ⟨false, "invalid-authtoken",
          "The authentication token was incorrect. Please try logging in again."⟩ 401)
      else
        let owner := GetOwner st.images hfr.ImageName
        if owner ≠ "" then
          if owner ≠ hfr.Username then
            (st, output w ⟨false, "no-permissions",
              "The image you requested to be deleted was not uploaded by you."⟩ 403)
          else
            match dbSetHidden env st.images hfr.ImageName hfr.Hidden with
            | none => (st, w.WriteHeader 500)
            | some images =>
              let hid := if hfr.Hidden then "hidden" else "unhidden"
              ({ st with images := images }, output w ⟨true, hid,
                "The image " ++ hfr.ImageName ++ " was successfully " ++ hid ++ "."⟩ 202)
        else
          (st, output w ⟨false, "does-not-exist",
            "The image you requested to be deleted does not exist."⟩ 404)

/-- The handler `delete` (handlers.go, lines 378 to 454).  The blob removed is always the
one at `name.png`. -/
def delete (config : Config) (env : Env) (st : State) (r : Request DeleteForm) :
    State × ResponseWriter :=
  let w := ResponseWriter.new
  if r.Method ≠ "POST" then (st, w.WriteHeader 405)
  else
    match r.form with
    | none => (st, w.WriteHeader 400)
    | some dfr =>
      if dfr.ImageName = "" ∨ dfr.Username = "" ∨ dfr.AuthToken = "" then
        (st, w.WriteHeader 400)
      else if !env.CheckAuthToken dfr.Username dfr.AuthToken then
        (st, output w ⟨false, "invalid-authtoken",
          "The authentication token was incorrect. Please try logging in again."⟩ 401)
      else
        let owner := GetOwner st.images dfr.ImageName
        if owner ≠ "" then
          if owner ≠ dfr.Username then
            (st, output w ⟨false, "no-permissions",
              "The image you requested to be deleted was not uploaded by you."⟩ 403)
          else
            match dbRemove env st.images dfr.ImageName with
            | none => (st, w.WriteHeader 500)
            | some images =>
              match osRemove env st.files
                  (config.ImageLocation ++ "/" ++ dfr.ImageName ++ ".png") with
              | (files, some msg) =>
                if HasSuffix msg "no such file or directory" then
                  (⟨images, files⟩, output w ⟨true, "deleted",
                    "The image " ++ dfr.ImageName ++ " was successfully deleted."⟩ 202)
                else
                  (⟨images, files⟩, w.WriteHeader 500)
              | (files, none) =>
                (⟨images, files⟩, output w ⟨true, "deleted",
                  "The image " ++ dfr.ImageName ++ " was successfully deleted."⟩ 202)
        else
          (st, output w ⟨false, "does-not-exist",
            "The image you requested to be deleted does not exist."⟩ 404)

/-! ## A concrete outside world

The theorems below hold for every `Env`.  To run the handlers on concrete requests one `Env`
is fixed here: credentials are looked up in a list, the payload is decoded as Go decodes
standard padded base64, and nothing fails. -/

/-- The value of a character of the standard base64 alphabet. -/
def decodeChar (c : Char) : Option Nat :=
  let n := c.toNat
  if 65 ≤ n ∧ n ≤ 90 then some (n - 65)
  else if 97 ≤ n ∧ n ≤ 122 then some (n - 97 + 26)
  else if 48 ≤ n ∧ n ≤ 57 then some (n - 48 + 52)
  else if n = 43 then some 62
  else if n = 47 then some 63
  else none

/-- Decoding of the quanta of four characters, after line breaks have been dropped: a full
quantum gives three bytes; the last one may end in one or two padding characters and then
gives two bytes or one; anything else is an error. -/
def decodeQuanta : List Char → Option Bytes
  | [] => some []
  | a :: b :: c :: d :: rest =>
    match decodeChar a, decodeChar b with
    | some va, some vb =>
      if c = '=' ∧ d = '=' then
        if rest = [] then some [va * 4 + vb / 16] else none
      else
        match decodeChar c with
        | none => none
        | some vc =>
          if d = '=' then
            if rest = [] then some [va * 4 + vb / 16, vb % 16 * 16 + vc / 4] else none
          else
            match decodeChar d with
            | none => none
            | some vd =>
              (decodeQuanta rest).map fun bytes =>
                (va * 4 + vb / 16) :: (vb % 16 * 16 + vc / 4) :: (vc % 4 * 64 + vd) :: bytes
    | _, _ => none
  | _ => none

/-- The behaviour of `base64.StdEncoding.DecodeString` (Go standard library): carriage returns
and line feeds are skipped, the rest is decoded quantum by quantum. -/
def DecodeString (s : String) : Option Bytes :=
  decodeQuanta (s.data.filter fun c => c ≠ Char.ofNat 10 ∧ c ≠ Char.ofNat 13)

/-- The data is a WebP container: `RIFF`, four bytes of length, `WEBPVP`. -/
def isWebP : Bytes → Bool
  | 82 :: 73 :: 70 :: 70 :: _ :: _ :: _ :: _ :: 87 :: 69 :: 66 :: 80 :: 86 :: 80 :: _ => true
  | _ => false

/-- The image entries of the sniffing table of `http.DetectContentType` (Go standard
library): icon, bitmap, GIF, PNG, JPEG and WebP.  Data with none of these signatures is
reported as `application/octet-stream` here; the real table goes on to tell text, markup,
audio, video, fonts and archives apart, none of which it calls an image. -/
def DetectContentType (data : Bytes) : String :=
  if [0, 0, 1, 0].isPrefixOf data then "image/x-icon"
  else if [0, 0, 2, 0].isPrefixOf data then "image/x-icon"
  else if [66, 77].isPrefixOf data then "image/bmp"
  else if [71, 73, 70, 56, 55, 97].isPrefixOf data then "image/gif"
  else if [71, 73, 70, 56, 57, 97].isPrefixOf data then "image/gif"
  else if [137, 80, 78, 71, 13, 10, 26, 10].isPrefixOf data then "image/png"
  else if [255, 216, 255].isPrefixOf data then "image/jpeg"
  else if isWebP data then "image/webp"
  else "application/octet-stream"

/-- The pieces of a path between its slashes. -/
def pathSegments : List Char → List (List Char)
  | [] => [[]]
  | c :: rest =>
    if c = '/' then [] :: pathSegments rest
    else
      match pathSegments rest with
      | [] => [[c]]
      | segment :: segments => (c :: segment) :: segments

/-- Walks along the segments of a path: an empty segment and `.` stay in place, `..` steps
back one segment (at the root it stays at the root, and at the start of a relative path it
is kept), any other segment steps into it.  `stack` holds the segments walked so far, the
last one first. -/
def walkSegments (rooted : Bool) (stack : List (List Char)) :
    List (List Char) → List (List Char)
  | [] => stack.reverse
  | segment :: rest =>
    if segment = [] ∨ segment = ['.'] then walkSegments rooted stack rest
    else if segment = ['.', '.'] then
      match stack with
      | [] =>
        if rooted then walkSegments rooted [] rest else walkSegments rooted [segment] rest
      | top :: below =>
        if top = ['.', '.'] then walkSegments rooted (segment :: stack) rest
        else walkSegments rooted below rest
    else walkSegments rooted (segment :: stack) rest

/-- The file a path names in a directory tree without symbolic links in which the
directories stepped through exist: the path with empty segments, `.` and `..` resolved. -/
def resolvePath (path : String) : String :=
  let rooted : Bool := path.data.head? == some '/'
  String.mk ((if rooted then ['/'] else []) ++
    List.intercalate ['/'] (walkSegments rooted [] (pathSegments path.data)))

/-- An outside world in which exactly the listed (username, token) pairs are accepted, the
clock shows `now`, a generated name is `"qwert"`, searches find nothing, no storage call
fails and paths are resolved by `resolvePath`. -/
def worldOf (accounts : List (String × String)) (now : Int) : Env where
  CheckAuthToken := fun username token => accounts.contains (username, token)
  DecodeString := DecodeString
  DetectContentType := DetectContentType
  ImageName := "qwert"
  now := now
  WriteFile := .ok
  InsertFails := false
  UpdateFails := false
  SetHiddenFails := false
  RemoveFails := false
  osRemoveError := none
  Resolve := resolvePath
  Search := fun _ _ _ _ _ => some []

/-! ## Runs of requests -/

/-- One request to one of the three handlers that change the state, together with the
outside world it meets. -/
inductive Call where
  | insert (env : Env) (r : Request InsertForm)
  | hide (env : Env) (r : Request HideForm)
  | delete (env : Env) (r : Request DeleteForm)

/-- The state a call leaves behind. -/
def Call.next (config : Config) (st : State) : Call → State
  | .insert env r => (MauImageServer.insert config env st r).1
  | .hide env r => (MauImageServer.hide env st r).1
  | .delete env r => (MauImageServer.delete config env st r).1

/-- The state after a sequence of calls, handled one after the other. -/
def runCalls (config : Config) (st : State) (calls : List Call) : State :=
  calls.foldl (Call.next config) st

/-- The outside world a call meets. -/
def Call.env : Call → Env
  | .insert env _ => env
  | .hide env _ => env
  | .delete env _ => env

/-- The call is a delete request. -/
def Call.isDelete : Call → Bool
  | .delete _ _ => true
  | _ => false

/-- The blob of an image with this name and format exists: there is a file at the path made
of them, as the file system resolves it. -/
def blobExists (config : Config) (resolve : String → String) (st : State)
    (name format : String) : Bool :=
  fileExists st.files (resolve (imagePath config name format))

/-- Every row has its blob. -/
def rowsHaveBlobs (config : Config) (resolve : String → String) (st : State) : Bool :=
  st.images.all fun e => blobExists config resolve st e.ImageName e.Format

/-- No file of the first state is missing from the second. -/
def FilesKept (st next : State) : Prop :=
  ∀ file, fileExists st.files file = true → fileExists next.files file = true

/-- Every row of the second state has the name and format of a row of the first state, or
has its blob in the second state. -/
def RowsBacked (config : Config) (resolve : String → String) (st next : State) : Prop :=
  ∀ e ∈ next.images,
    (∃ e0 ∈ st.images, e0.ImageName = e.ImageName ∧ e0.Format = e.Format) ∨
      blobExists config resolve next e.ImageName e.Format = true

/-! ## Basic facts -/

@[simp] theorem fillDefaults_Image (env : Env) (ifr : InsertForm) :
    (fillDefaults env ifr).Image = ifr.Image := by
  simp only [fillDefaults]; split_ifs <;> simp_all

@[simp] theorem fillDefaults_Username (env : Env) (ifr : InsertForm) :
    (fillDefaults env ifr).Username = ifr.Username := by
  simp only [fillDefaults]; split_ifs <;> simp_all

@[simp] theorem fillDefaults_AuthToken (env : Env) (ifr : InsertForm) :
    (fillDefaults env ifr).AuthToken = ifr.AuthToken := by
  simp only [fillDefaults]; split_ifs <;> simp_all

@[simp] theorem fillDefaults_Hidden (env : Env) (ifr : InsertForm) :
    (fillDefaults env ifr).Hidden = ifr.Hidden := by
  simp only [fillDefaults]; split_ifs <;> simp_all

theorem fillDefaults_ImageName (env : Env) (ifr : InsertForm) :
    (fillDefaults env ifr).ImageName =
      if ifr.ImageName = "" then env.ImageName else ifr.ImageName := by
  simp only [fillDefaults]; split_ifs <;> simp_all

theorem fillDefaults_ImageFormat (env : Env) (ifr : InsertForm) :
    (fillDefaults env ifr).ImageFormat =
      if ifr.ImageFormat = "" then "png" else ifr.ImageFormat := by
  simp only [fillDefaults]; split_ifs <;> simp_all

/-- When the name has an owner other than the requester, or the requester is `anonymous`,
the second half of `insert` answers `already-exists` and changes nothing. -/
theorem insertStore_conflict (config : Config) (env : Env) (st : State) (ip : String)
    (ifr : InsertForm) (w : ResponseWriter)
    (howner : GetOwner st.images ifr.ImageName ≠ "")
    (hother : GetOwner st.images ifr.ImageName ≠ ifr.Username ∨ ifr.Username = "anonymous") :
    insertStore config env st ip ifr w =
      (st, output w ⟨false, "already-exists",
        "The requested image name is already in use by another user"⟩ 403) := by
  unfold insertStore
  simp only [if_pos (And.intro howner hother)]

/-! ## Insert without credentials on a server that requires authentication -/

/-- C1, evaluated on the code: with `RequireAuth` set, an insert of a PNG under the free name
`abc` that carries neither username nor token gets the status 401 and the `not-logged-in`
body, but the handler goes on: the blob `/img/abc.png` is written, a row with the empty
owner is inserted, and a `created` body follows in the same response. -/
theorem insert_not_logged_in_goes_on :
    insert ⟨true, true, "/img"⟩ (worldOf [] 1000) State.empty
        (Request.post "10.0.0.1" ⟨"iVBORw0KGgo=", "abc", "", "", "", "", false⟩) =
      (⟨[⟨"abc", "png", "png", "", "10.0.0.1", "Unknown Client", false, 1000⟩],
        [("/img/abc.png", [137, 80, 78, 71, 13, 10, 26, 10])]⟩,
       ⟨some 401,
        [⟨false, "not-logged-in",
           "This MIS server requires authentication. Please log in or register."⟩,
         ⟨true, "created", "The image was successfully saved with the name abc"⟩]⟩) := by
  decide

/-- C2, evaluated on the code: with `RequireAuth` set and no account that verifies, an insert
that names the owner `alice` of the existing image `abc` and carries no token replaces her
image: the blob is overwritten and the row updated, although the credential checker was never
asked. -/
theorem insert_username_without_token_replaces :
    insert ⟨true, true, "/img"⟩ (worldOf [] 2000)
        ⟨[⟨"abc", "png", "png", "alice", "10.0.0.1", "Unknown Client", false, 1000⟩],
         [("/img/abc.png", [137, 80, 78, 71, 13, 10, 26, 10])]⟩
        (Request.post "10.6.6.6" ⟨"/9j/4A==", "abc", "", "", "alice", "", true⟩) =
      (⟨[⟨"abc", "png", "jpeg", "alice", "10.6.6.6", "Unknown Client", true, 2000⟩],
        [("/img/abc.png", [255, 216, 255, 224])]⟩,
       ⟨some 401,
        [⟨false, "not-logged-in",
           "This MIS server requires authentication. Please log in or register."⟩,
         ⟨true, "replaced", "The image was successfully saved with the name abc" ++
           ", replacing your previous image with the same name"⟩]⟩) := by
  decide

/-! ## Insert under a name owned by someone else -/

/-- C3: when the name of an insert request with a non-empty payload has the owner `u`, and
the identity `v` the request resolves to (the username, verified by the credential checker,
or `anonymous` when a credential is missing and authentication is not required) differs
from `u`, the answer is `already-exists` with status 403 and the state is unchanged. -/
theorem insert_by_other_identity_already_exists (config : Config) (env : Env) (st : State)
    (ip : String) (ifr : InsertForm) (u v : String)
    (hpayload : ifr.Image ≠ "")
    (hu : u ≠ "")
    (howner : GetOwner st.images (fillDefaults env ifr).ImageName = u)
    (hv : (ifr.Username ≠ "" ∧ ifr.AuthToken ≠ "" ∧
            env.CheckAuthToken ifr.Username ifr.AuthToken = true ∧ v = ifr.Username) ∨
          ((ifr.Username = "" ∨ ifr.AuthToken = "") ∧ config.RequireAuth = false ∧
            v = "anonymous"))
    (hvu : v ≠ u) :
    insert config env st (Request.post ip ifr) =
      (st, ⟨some 403, [⟨false, "already-exists",
        "The requested image name is already in use by another user"⟩]⟩) := by
  have hout : output ResponseWriter.new ⟨false, "already-exists",
      "The requested image name is already in use by another user"⟩ 403 =
      ⟨some 403, [⟨false, "already-exists",
        "The requested image name is already in use by another user"⟩]⟩ := rfl
  rcases hv with ⟨hname, htok, hcheck, rfl⟩ | ⟨habsent, hreq, rfl⟩
  · have hno : ¬ (ifr.Username = "" ∨ ifr.AuthToken = "") := by
      rintro (h | h)
      · exact hname h
      · exact htok h
    simp only [insert, Request.post, ne_eq, not_true_eq_false, if_false, hpayload,
      fillDefaults_Username, fillDefaults_AuthToken, hno, hcheck, Bool.not_true,
      Bool.false_eq_true]
    rw [insertStore_conflict config env st ip _ _ (by rw [howner]; exact hu)
      (Or.inl (by rw [howner, fillDefaults_Username]; exact fun h => hvu h.symm)), hout]
  · simp only [insert, Request.post, ne_eq, not_true_eq_false, if_false, hpayload,
      fillDefaults_Username, fillDefaults_AuthToken, habsent, hreq, if_true,
      Bool.false_eq_true]
    rw [insertStore_conflict config env st ip _ _ (by simpa [howner] using hu)
      (Or.inr rfl), hout]

/-- A run of C3: `abc` belongs to `alice`; `bob`, whose token verifies, tries to insert under
that name and gets `already-exists`, with nothing changed. -/
theorem insert_by_other_identity_already_exists_witness :
    insert ⟨false, true, "/img"⟩ (worldOf [("bob", "t1")] 2000)
        ⟨[⟨"abc", "png", "png", "alice", "10.0.0.1", "Unknown Client", false, 1000⟩],
         [("/img/abc.png", [137, 80, 78, 71, 13, 10, 26, 10])]⟩
        (Request.post "10.0.0.2" ⟨"/9j/4A==", "abc", "jpg", "", "bob", "t1", false⟩) =
      (⟨[⟨"abc", "png", "png", "alice", "10.0.0.1", "Unknown Client", false, 1000⟩],
         [("/img/abc.png", [137, 80, 78, 71, 13, 10, 26, 10])]⟩,
       ⟨some 403, [⟨false, "already-exists",
        "The requested image name is already in use by another user"⟩]⟩) :=
  insert_by_other_identity_already_exists _ _ _ _ _ "alice" "bob" (by decide) (by decide)
    (by decide) (Or.inl ⟨by decide, by decide, by decide, rfl⟩) (by decide)

/-! ## Anonymous inserts -/

/-- A writer that has only been given one structured outcome. -/
theorem output_new (response : InsertResponse) (status : Nat) :
    output ResponseWriter.new response status = ⟨some status, [response]⟩ := rfl

/-- The owner of a name that has no row is the empty string. -/
theorem GetOwner_of_no_row (images : List ImageEntry) (name : String)
    (hfree : ∀ e ∈ images, e.ImageName ≠ name) : GetOwner images name = "" := by
  unfold GetOwner
  have hnone : images.find? (fun e => e.ImageName == name) = none := by
    rw [List.find?_eq_none]
    intro e he
    simpa using hfree e he
  rw [hnone]

/-- After a row has been added for a name that had none, the owner of the name is the owner
of that row. -/
theorem GetOwner_append_new (images : List ImageEntry) (row : ImageEntry)
    (hfree : ∀ e ∈ images, e.ImageName ≠ row.ImageName) :
    GetOwner (images ++ [row]) row.ImageName = row.Adder := by
  unfold GetOwner
  have hnone : images.find? (fun e => e.ImageName == row.ImageName) = none := by
    rw [List.find?_eq_none]
    intro e he
    simpa using hfree e he
  simp [List.find?_append, hnone]

/-- The second half of `insert` on a name without owner, with a payload that decodes to
image data and no storage failure: the blob is written, the row added, the answer is
`created`. -/
theorem insertStore_create (config : Config) (env : Env) (st : State) (ip : String)
    (ifr : InsertForm) (w : ResponseWriter) (image : Bytes)
    (howner : GetOwner st.images ifr.ImageName = "")
    (hdec : env.DecodeString ifr.Image = some image)
    (hmime : HasPrefix (env.DetectContentType image) "image/" = true)
    (hwrite : env.WriteFile = .ok) (hins : env.InsertFails = false) :
    insertStore config env st ip ifr w =
      (⟨st.images ++ [⟨ifr.ImageName, ifr.ImageFormat,
          String.mk ((env.DetectContentType image).data.drop 6), ifr.Username, ip, ifr.Client,
          ifr.Hidden, env.now⟩],
        putFile st.files (env.Resolve (imagePath config ifr.ImageName ifr.ImageFormat)) image⟩,
       output w ⟨true, "created",
        "The image was successfully saved with the name " ++ ifr.ImageName⟩ 201) := by
  simp [insertStore, howner, hdec, hmime, WriteFile, hwrite, dbInsert, hins]

/-- C4 as stated fails on the code: on a server that does not require authentication an
insert of a PNG under the free name `abc` without credentials is answered `created`, and the
same request sent again is answered `already-exists` with status 403, not `replaced`. -/
theorem anonymous_second_insert_not_replaced :
    (insert ⟨false, true, "/img"⟩ (worldOf [] 1000) State.empty
        (Request.post "10.0.0.1" ⟨"iVBORw0KGgo=", "abc", "", "", "", "", false⟩)).2 =
      ⟨some 201, [⟨true, "created", "The image was successfully saved with the name abc"⟩]⟩ ∧
    (insert ⟨false, true, "/img"⟩ (worldOf [] 1000)
        (insert ⟨false, true, "/img"⟩ (worldOf [] 1000) State.empty
          (Request.post "10.0.0.1" ⟨"iVBORw0KGgo=", "abc", "", "", "", "", false⟩)).1
        (Request.post "10.0.0.1" ⟨"iVBORw0KGgo=", "abc", "", "", "", "", false⟩)).2 =
      ⟨some 403, [⟨false, "already-exists",
        "The requested image name is already in use by another user"⟩]⟩ := by
  decide

/-- C4, amended: when authentication is not required, the name of the request has no row, the
payload is non-empty and decodes to data sniffed as an image, and neither the blob write nor
the metadata insert fails, an insert without credentials is answered `created` with status
201 and records the owner `anonymous`; a second insert without credentials under the same
name, run on the resulting state, is answered `already-exists` with status 403 and leaves
that state unchanged. -/
theorem anonymous_insert_created_then_already_exists (config : Config) (env env2 : Env)
    (st : State) (ip ip2 : String) (ifr ifr2 : InsertForm) (image : Bytes)
    (hreq : config.RequireAuth = false)
    (hpayload : ifr.Image ≠ "")
    (habsent : ifr.Username = "" ∨ ifr.AuthToken = "")
    (hfree : ∀ e ∈ st.images, e.ImageName ≠ (fillDefaults env ifr).ImageName)
    (hdec : env.DecodeString ifr.Image = some image)
    (hmime : HasPrefix (env.DetectContentType image) "image/" = true)
    (hwrite : env.WriteFile = .ok) (hins : env.InsertFails = false)
    (hpayload2 : ifr2.Image ≠ "")
    (habsent2 : ifr2.Username = "" ∨ ifr2.AuthToken = "")
    (hsame : (fillDefaults env2 ifr2).ImageName = (fillDefaults env ifr).ImageName) :
    (insert config env st (Request.post ip ifr)).2 =
        ⟨some 201, [⟨true, "created", "The image was successfully saved with the name " ++
          (fillDefaults env ifr).ImageName⟩]⟩ ∧
      GetOwner (insert config env st (Request.post ip ifr)).1.images
        (fillDefaults env ifr).ImageName = "anonymous" ∧
      insert config env2 (insert config env st (Request.post ip ifr)).1
          (Request.post ip2 ifr2) =
        ((insert config env st (Request.post ip ifr)).1,
          ⟨some 403, [⟨false, "already-exists",
            "The requested image name is already in use by another user"⟩]⟩) := by
  have hfirst : insert config env st (Request.post ip ifr) =
      insertStore config env st ip { fillDefaults env ifr with Username := "anonymous" }
        ResponseWriter.new := by
    simp only [insert, Request.post, ne_eq, not_true_eq_false, if_false, hpayload,
      fillDefaults_Username, fillDefaults_AuthToken, habsent, hreq, if_true,
      Bool.false_eq_true]
  have hsecond : ∀ st1 : State, insert config env2 st1 (Request.post ip2 ifr2) =
      insertStore config env2 st1 ip2 { fillDefaults env2 ifr2 with Username := "anonymous" }
        ResponseWriter.new := by
    intro st1
    simp only [insert, Request.post, ne_eq, not_true_eq_false, if_false, hpayload2,
      fillDefaults_Username, fillDefaults_AuthToken, habsent2, hreq, if_true,
      Bool.false_eq_true]
  have hcreate := insertStore_create config env st ip
    { fillDefaults env ifr with Username := "anonymous" } ResponseWriter.new image
    (GetOwner_of_no_row _ _ hfree) (by simpa using hdec) hmime hwrite hins
  have hown : GetOwner (insert config env st (Request.post ip ifr)).1.images
      (fillDefaults env ifr).ImageName = "anonymous" := by
    rw [hfirst, hcreate]
    exact GetOwner_append_new st.images
      ⟨(fillDefaults env ifr).ImageName, _, _, "anonymous", _, _, _, _⟩ hfree
  refine ⟨?_, hown, ?_⟩
  · rw [hfirst, hcreate, output_new]
  · rw [hsecond, insertStore_conflict _ _ _ _ _ _ (by simp [hsame, hown]) (Or.inr rfl),
      output_new]

/-- A run of the amended C4 on the empty state: the name `abc`, a PNG payload, twice. -/
theorem anonymous_insert_created_then_already_exists_witness :
    (insert ⟨false, true, "/img"⟩ (worldOf [] 1000) State.empty
        (Request.post "10.0.0.1" ⟨"iVBORw0KGgo=", "abc", "", "", "", "", false⟩)).2 =
        ⟨some 201, [⟨true, "created", "The image was successfully saved with the name " ++
          (fillDefaults (worldOf [] 1000)
            ⟨"iVBORw0KGgo=", "abc", "", "", "", "", false⟩).ImageName⟩]⟩ ∧
      GetOwner (insert ⟨false, true, "/img"⟩ (worldOf [] 1000) State.empty
        (Request.post "10.0.0.1" ⟨"iVBORw0KGgo=", "abc", "", "", "", "", false⟩)).1.images
        (fillDefaults (worldOf [] 1000)
          ⟨"iVBORw0KGgo=", "abc", "", "", "", "", false⟩).ImageName = "anonymous" ∧
      insert ⟨false, true, "/img"⟩ (worldOf [] 2000)
          (insert ⟨false, true, "/img"⟩ (worldOf [] 1000) State.empty
            (Request.post "10.0.0.1" ⟨"iVBORw0KGgo=", "abc", "", "", "", "", false⟩)).1
          (Request.post "10.0.0.2" ⟨"/9j/4A==", "abc", "jpg", "", "", "", true⟩) =
        ((insert ⟨false, true, "/img"⟩ (worldOf [] 1000) State.empty
            (Request.post "10.0.0.1" ⟨"iVBORw0KGgo=", "abc", "", "", "", "", false⟩)).1,
          ⟨some 403, [⟨false, "already-exists",
            "The requested image name is already in use by another user"⟩]⟩) :=
  anonymous_insert_created_then_already_exists ⟨false, true, "/img"⟩ (worldOf [] 1000)
    (worldOf [] 2000) State.empty "10.0.0.1" "10.0.0.2"
    ⟨"iVBORw0KGgo=", "abc", "", "", "", "", false⟩ ⟨"/9j/4A==", "abc", "jpg", "", "", "", true⟩
    [137, 80, 78, 71, 13, 10, 26, 10] rfl (by decide) (by decide) (by decide) (by decide)
    (by decide) rfl rfl (by decide) (by decide) (by decide)

/-! ## Delete and the blob of an image whose format is not `png` -/

/-- C5, evaluated on the code: `alice`, whose token verifies, inserts a JPEG under the name
`abc` with the format `jpg`, which writes the blob `/img/abc.jpg`; her delete of `abc` is
answered `deleted`, the row is gone, and the blob `/img/abc.jpg` is still there, because the
file the handler removes is `/img/abc.png`. -/
theorem delete_leaves_blob_of_other_format :
    insert ⟨true, true, "/img"⟩ (worldOf [("alice", "a1")] 1000) State.empty
        (Request.post "10.0.0.1" ⟨"/9j/4A==", "abc", "jpg", "", "alice", "a1", false⟩) =
      (⟨[⟨"abc", "jpg", "jpeg", "alice", "10.0.0.1", "Unknown Client", false, 1000⟩],
        [("/img/abc.jpg", [255, 216, 255, 224])]⟩,
       ⟨some 201,
        [⟨true, "created", "The image was successfully saved with the name abc"⟩]⟩) ∧
    delete ⟨true, true, "/img"⟩ (worldOf [("alice", "a1")] 2000)
        ⟨[⟨"abc", "jpg", "jpeg", "alice", "10.0.0.1", "Unknown Client", false, 1000⟩],
         [("/img/abc.jpg", [255, 216, 255, 224])]⟩
        (Request.post "10.0.0.1" ⟨"abc", "alice", "a1"⟩) =
      (⟨[], [("/img/abc.jpg", [255, 216, 255, 224])]⟩,
       ⟨some 202, [⟨true, "deleted", "The image abc was successfully deleted."⟩]⟩) ∧
    fileExists [("/img/abc.jpg", [255, 216, 255, 224])] (imagePath ⟨true, true, "/img"⟩
      "abc" "jpg") = true := by
  decide

/-! ## The failure outcomes of hide and delete -/

/-- C6: for a hide request and a delete request with name, username and token all non-empty,
the failure outcomes come in this order, and each leaves the state as it was: a token that
does not verify gives `invalid-authtoken` (401) whatever the table says; otherwise a name
without owner gives `does-not-exist` (404); otherwise an owner other than the username gives
`no-permissions` (403). -/
theorem hide_delete_failure_order (config : Config) (env : Env) (st : State) (ip : String)
    (hfr : HideForm) (dfr : DeleteForm)
    (hhide : hfr.ImageName ≠ "" ∧ hfr.Username ≠ "" ∧ hfr.AuthToken ≠ "")
    (hdelete : dfr.ImageName ≠ "" ∧ dfr.Username ≠ "" ∧ dfr.AuthToken ≠ "") :
    (env.CheckAuthToken hfr.Username hfr.AuthToken = false →
        hide env st (Request.post ip hfr) =
          (st, ⟨some 401, [⟨false, "invalid-authtoken",
            "The authentication token was incorrect. Please try logging in again."⟩]⟩)) ∧
      (env.CheckAuthToken hfr.Username hfr.AuthToken = true →
        GetOwner st.images hfr.ImageName = "" →
        hide env st (Request.post ip hfr) =
          (st, ⟨some 404, [⟨false, "does-not-exist",
            "The image you requested to be deleted does not exist."⟩]⟩)) ∧
      (env.CheckAuthToken hfr.Username hfr.AuthToken = true →
        GetOwner st.images hfr.ImageName ≠ "" →
        GetOwner st.images hfr.ImageName ≠ hfr.Username →
        hide env st (Request.post ip hfr) =
          (st, ⟨some 403, [⟨false, "no-permissions",
            "The image you requested to be deleted was not uploaded by you."⟩]⟩)) ∧
      (env.CheckAuthToken dfr.Username dfr.AuthToken = false →
        delete config env st (Request.post ip dfr) =
          (st, ⟨some 401, [⟨false, "invalid-authtoken",
            "The authentication token was incorrect. Please try logging in again."⟩]⟩)) ∧
      (env.CheckAuthToken dfr.Username dfr.AuthToken = true →
        GetOwner st.images dfr.ImageName = "" →
        delete config env st (Request.post ip dfr) =
          (st, ⟨some 404, [⟨false, "does-not-exist",
            "The image you requested to be deleted does not exist."⟩]⟩)) ∧
      (env.CheckAuthToken dfr.Username dfr.AuthToken = true →
        GetOwner st.images dfr.ImageName ≠ "" →
        GetOwner st.images dfr.ImageName ≠ dfr.Username →
        delete config env st (Request.post ip dfr) =
          (st, ⟨some 403, [⟨false, "no-permissions",
            "The image you requested to be deleted was not uploaded by you."⟩]⟩)) := by
  obtain ⟨hn, hu, ht⟩ := hhide
  obtain ⟨dn, du, dt⟩ := hdelete
  refine ⟨?_, ?_, ?_, ?_, ?_, ?_⟩
  · intro hbad
    simp [hide, Request.post, hn, hu, ht, hbad, output_new]
  · intro hgood hnone
    simp [hide, Request.post, hn, hu, ht, hgood, hnone, output_new]
  · intro hgood hsome hother
    simp [hide, Request.post, hn, hu, ht, hgood, hsome, hother, output_new]
  · intro hbad
    simp [delete, Request.post, dn, du, dt, hbad, output_new]
  · intro hgood hnone
    simp [delete, Request.post, dn, du, dt, hgood, hnone, output_new]
  · intro hgood hsome hother
    simp [delete, Request.post, dn, du, dt, hgood, hsome, hother, output_new]

/-- A run of C6: `abc` belongs to `alice`; the delete of `abc` by `bob` with his token `t1`
is answered `no-permissions`, and the row and the blob `/img/abc.png` stay. -/
theorem hide_delete_failure_order_witness :
    delete ⟨true, true, "/img"⟩ (worldOf [("bob", "t1")] 2000)
        ⟨[⟨"abc", "png", "png", "alice", "10.0.0.1", "Unknown Client", false, 1000⟩],
         [("/img/abc.png", [137, 80, 78, 71, 13, 10, 26, 10])]⟩
        (Request.post "10.0.0.2" ⟨"abc", "bob", "t1"⟩) =
      (⟨[⟨"abc", "png", "png", "alice", "10.0.0.1", "Unknown Client", false, 1000⟩],
         [("/img/abc.png", [137, 80, 78, 71, 13, 10, 26, 10])]⟩,
       ⟨some 403, [⟨false, "no-permissions",
        "The image you requested to be deleted was not uploaded by you."⟩]⟩) :=
  (hide_delete_failure_order ⟨true, true, "/img"⟩ (worldOf [("bob", "t1")] 2000)
    ⟨[⟨"abc", "png", "png", "alice", "10.0.0.1", "Unknown Client", false, 1000⟩],
     [("/img/abc.png", [137, 80, 78, 71, 13, 10, 26, 10])]⟩ "10.0.0.2"
    ⟨"abc", true, "bob", "t1"⟩ ⟨"abc", "bob", "t1"⟩
    ⟨by decide, by decide, by decide⟩ ⟨by decide, by decide, by decide⟩).2.2.2.2.2
    (by decide) (by decide) (by decide)

/-! ## The account named `anonymous` -/

/-- C7, evaluated on the code: the image `abc` was uploaded without credentials, so its owner
on record is `anonymous`.  A hide request with the username `anonymous` and a token the
credential checker accepts is answered `hidden` and changes the row; a delete request with
the same credentials is answered `deleted` and removes the row and the blob.  Neither
handler has the test for `anonymous` that `insert` has. -/
theorem anonymous_account_hides_and_deletes :
    hide (worldOf [("anonymous", "pw")] 2000)
        ⟨[⟨"abc", "png", "png", "anonymous", "10.0.0.1", "Unknown Client", false, 1000⟩],
         [("/img/abc.png", [137, 80, 78, 71, 13, 10, 26, 10])]⟩
        (Request.post "10.6.6.6" ⟨"abc", true, "anonymous", "pw"⟩) =
      (⟨[⟨"abc", "png", "png", "anonymous", "10.0.0.1", "Unknown Client", true, 1000⟩],
         [("/img/abc.png", [137, 80, 78, 71, 13, 10, 26, 10])]⟩,
       ⟨some 202, [⟨true, "hidden", "The image abc was successfully hidden."⟩]⟩) ∧
    delete ⟨false, true, "/img"⟩ (worldOf [("anonymous", "pw")] 2000)
        ⟨[⟨"abc", "png", "png", "anonymous", "10.0.0.1", "Unknown Client", false, 1000⟩],
         [("/img/abc.png", [137, 80, 78, 71, 13, 10, 26, 10])]⟩
        (Request.post "10.6.6.6" ⟨"abc", "anonymous", "pw"⟩) =
      (⟨[], []⟩,
       ⟨some 202, [⟨true, "deleted", "The image abc was successfully deleted."⟩]⟩) ∧
    insert ⟨false, true, "/img"⟩ (worldOf [("anonymous", "pw")] 2000)
        ⟨[⟨"abc", "png", "png", "anonymous", "10.0.0.1", "Unknown Client", false, 1000⟩],
         [("/img/abc.png", [137, 80, 78, 71, 13, 10, 26, 10])]⟩
        (Request.post "10.6.6.6" ⟨"/9j/4A==", "abc", "", "", "anonymous", "pw", false⟩) =
      (⟨[⟨"abc", "png", "png", "anonymous", "10.0.0.1", "Unknown Client", false, 1000⟩],
         [("/img/abc.png", [137, 80, 78, 71, 13, 10, 26, 10])]⟩,
       ⟨some 403, [⟨false, "already-exists",
        "The requested image name is already in use by another user"⟩]⟩) := by
  decide

/-! ## Payloads that are empty or not base64 -/

/-- With a payload that does not decode, the second half of `insert` changes nothing. -/
theorem insertStore_undecodable_state (config : Config) (env : Env) (st : State)
    (ip : String) (ifr : InsertForm) (w : ResponseWriter)
    (hdec : env.DecodeString ifr.Image = none) :
    (insertStore config env st ip ifr w).1 = st := by
  unfold insertStore
  simp only [hdec]
  split_ifs <;> rfl

/-- With a payload that does not decode and no conflict of ownership, the second half of
`insert` sends the bare status 500. -/
theorem insertStore_undecodable (config : Config) (env : Env) (st : State)
    (ip : String) (ifr : InsertForm) (w : ResponseWriter)
    (hdec : env.DecodeString ifr.Image = none)
    (hfree : ¬ (GetOwner st.images ifr.ImageName ≠ "" ∧
      (GetOwner st.images ifr.ImageName ≠ ifr.Username ∨ ifr.Username = "anonymous"))) :
    insertStore config env st ip ifr w = (st, w.WriteHeader 500) := by
  unfold insertStore
  simp only [hdec, if_neg hfree]

/-- C8 as stated fails on the code: the payload `!!!!` is not base64; an insert with it and
without credentials, on a server that does not require them, is answered with the bare
internal error 500, and the same payload with a token that does not verify is answered
`invalid-authtoken`, so the payload is looked at only after identity resolution. -/
theorem undecodable_payload_internal_error :
    DecodeString "!!!!" = none ∧
    insert ⟨false, true, "/img"⟩ (worldOf [] 1000) State.empty
        (Request.post "10.0.0.1" ⟨"!!!!", "abc", "", "", "", "", false⟩) =
      (State.empty, ⟨some 500, []⟩) ∧
    insert ⟨false, true, "/img"⟩ (worldOf [] 1000) State.empty
        (Request.post "10.0.0.1" ⟨"!!!!", "abc", "", "", "mallory", "guess", false⟩) =
      (State.empty, ⟨some 401, [⟨false, "invalid-authtoken",
        "Your authentication token was incorrect. Please try logging in again."⟩]⟩) := by
  decide

/-- C8, amended: an insert with an empty payload is answered with the bare status 400, before
identity resolution and the ownership check, and changes nothing.  An insert with a non-empty
payload that does not decode as base64 changes nothing either, and is rejected after identity
resolution and the ownership check: a token that does not verify gives `invalid-authtoken`
(401); when the identity `v` is resolved (the verified username, or `anonymous` when a
credential is missing and authentication is not required), a name owned by someone else, or
owned at all when `v` is `anonymous`, gives `already-exists` (403), and otherwise the answer
is the bare internal error 500. -/
theorem insert_rejects_bad_payload (config : Config) (env : Env) (st : State) (ip : String)
    (ifr : InsertForm) (v : String) :
    (ifr.Image = "" → insert config env st (Request.post ip ifr) = (st, ⟨some 400, []⟩)) ∧
    (ifr.Image ≠ "" → env.DecodeString ifr.Image = none →
      (insert config env st (Request.post ip ifr)).1 = st ∧
      (ifr.Username ≠ "" → ifr.AuthToken ≠ "" →
        env.CheckAuthToken ifr.Username ifr.AuthToken = false →
        insert config env st (Request.post ip ifr) =
          (st, ⟨some 401, [⟨false, "invalid-authtoken",
            "Your authentication token was incorrect. Please try logging in again."⟩]⟩)) ∧
      ((ifr.Username ≠ "" ∧ ifr.AuthToken ≠ "" ∧
          env.CheckAuthToken ifr.Username ifr.AuthToken = true ∧ v = ifr.Username) ∨
        ((ifr.Username = "" ∨ ifr.AuthToken = "") ∧ config.RequireAuth = false ∧
          v = "anonymous") →
        (GetOwner st.images (fillDefaults env ifr).ImageName ≠ "" ∧
            (GetOwner st.images (fillDefaults env ifr).ImageName ≠ v ∨ v = "anonymous") →
          insert config env st (Request.post ip ifr) =
            (st, ⟨some 403, [⟨false, "already-exists",
              "The requested image name is already in use by another user"⟩]⟩)) ∧
        (¬ (GetOwner st.images (fillDefaults env ifr).ImageName ≠ "" ∧
            (GetOwner st.images (fillDefaults env ifr).ImageName ≠ v ∨ v = "anonymous")) →
          insert config env st (Request.post ip ifr) = (st, ⟨some 500, []⟩)))) := by
  refine ⟨?_, ?_⟩
  · intro hempty
    simp [insert, Request.post, hempty, ResponseWriter.new, ResponseWriter.WriteHeader]
  · intro hpayload hdec
    have hdec1 : env.DecodeString (fillDefaults env ifr).Image = none := by simpa using hdec
    refine ⟨?_, ?_, ?_⟩
    · simp only [insert, Request.post, ne_eq, not_true_eq_false, if_false, hpayload]
      split_ifs
      · exact insertStore_undecodable_state _ _ _ _ _ _ hdec1
      · exact insertStore_undecodable_state _ _ _ _ _ _ hdec1
      · rfl
      · exact insertStore_undecodable_state _ _ _ _ _ _ hdec1
    · intro hname htok hbad
      simp [insert, Request.post, hpayload, hname, htok, hbad, output_new]
    · rintro (⟨hname, htok, hcheck, rfl⟩ | ⟨habsent, hreq, rfl⟩)
      · have hno : ¬ (ifr.Username = "" ∨ ifr.AuthToken = "") := by
          rintro (h | h)
          · exact hname h
          · exact htok h
        have hins : insert config env st (Request.post ip ifr) =
            insertStore config env st ip (fillDefaults env ifr) ResponseWriter.new := by
          simp only [insert, Request.post, ne_eq, not_true_eq_false, if_false, hpayload,
            fillDefaults_Username, fillDefaults_AuthToken, hno, hcheck, Bool.not_true,
            Bool.false_eq_true]
        refine ⟨?_, ?_⟩
        · rintro ⟨howner, hother⟩
          rw [hins, insertStore_conflict _ _ _ _ _ _ howner (by simpa using hother),
            output_new]
        · intro hfree
          rw [hins, insertStore_undecodable _ _ _ _ _ _ hdec1 (by simpa using hfree)]
          rfl
      · have hins : insert config env st (Request.post ip ifr) =
            insertStore config env st ip
              { fillDefaults env ifr with Username := "anonymous" } ResponseWriter.new := by
          simp only [insert, Request.post, ne_eq, not_true_eq_false, if_false, hpayload,
            fillDefaults_Username, fillDefaults_AuthToken, habsent, hreq, if_true,
            Bool.false_eq_true]
        refine ⟨?_, ?_⟩
        · rintro ⟨howner, hother⟩
          rw [hins, insertStore_conflict config env st ip
            { fillDefaults env ifr with Username := "anonymous" } _ howner (Or.inr rfl),
            output_new]
        · intro hfree
          rw [hins, insertStore_undecodable config env st ip
            { fillDefaults env ifr with Username := "anonymous" } _ (by simpa using hdec)
            (by simpa using hfree)]
          rfl

/-- A run of the amended C8: the empty payload is answered 400, and the payload `!!!!` sent
by `bob`, whose token verifies, under a free name is answered 500; the state stays empty. -/
theorem insert_rejects_bad_payload_witness :
    insert ⟨true, true, "/img"⟩ (worldOf [("bob", "t1")] 1000) State.empty
        (Request.post "10.0.0.2" ⟨"", "abc", "", "", "bob", "t1", false⟩) =
      (State.empty, ⟨some 400, []⟩) ∧
    insert ⟨true, true, "/img"⟩ (worldOf [("bob", "t1")] 1000) State.empty
        (Request.post "10.0.0.2" ⟨"!!!!", "abc", "", "", "bob", "t1", false⟩) =
      (State.empty, ⟨some 500, []⟩) :=
  ⟨(insert_rejects_bad_payload ⟨true, true, "/img"⟩ (worldOf [("bob", "t1")] 1000)
      State.empty "10.0.0.2" ⟨"", "abc", "", "", "bob", "t1", false⟩ "bob").1 rfl,
   (((insert_rejects_bad_payload ⟨true, true, "/img"⟩ (worldOf [("bob", "t1")] 1000)
      State.empty "10.0.0.2" ⟨"!!!!", "abc", "", "", "bob", "t1", false⟩ "bob").2
      (by decide) (by decide)).2.2
      (Or.inl ⟨by decide, by decide, by decide, rfl⟩)).2 (by decide)⟩

/-! ## The time range of a search -/

/-- C10: a search request that is accepted (search allowed, not every field empty or
non-positive) calls `database.Search` with the format, uploader and client it was sent with
and with bounds `(lo, hi)` that are `(1, MaxTime)` when only `MaxTime` is positive,
`(MinTime, now)` when only `MinTime` is positive, and `(MinTime, MaxTime)` as sent otherwise:
for every store, what the handler answers is what the store returns at exactly these
arguments, the results with status 200 or, on an error, status 500. -/
theorem search_time_bounds (config : Config) (env : Env) (ip : String) (sf : SearchForm)
    (hallow : config.AllowSearch = true)
    (hsome : ¬ (sf.Format = "" ∧ sf.Uploader = "" ∧ sf.Client = "" ∧ sf.MinTime ≤ 0 ∧
      sf.MaxTime ≤ 0)) :
    ∃ lo hi : Int,
      (sf.MinTime ≤ 0 → sf.MaxTime > 0 → lo = 1 ∧ hi = sf.MaxTime) ∧
      (sf.MinTime > 0 → sf.MaxTime ≤ 0 → lo = sf.MinTime ∧ hi = env.now) ∧
      (sf.MinTime > 0 → sf.MaxTime > 0 → lo = sf.MinTime ∧ hi = sf.MaxTime) ∧
      (sf.MinTime ≤ 0 → sf.MaxTime ≤ 0 → lo = sf.MinTime ∧ hi = sf.MaxTime) ∧
      search config env (Request.post ip sf) =
        match env.Search sf.Format sf.Uploader sf.Client lo hi with
        | none => ⟨some ⟨sf.Format, sf.Uploader, sf.Client, lo, hi⟩, 500, []⟩
        | some results => ⟨some ⟨sf.Format, sf.Uploader, sf.Client, lo, hi⟩, 200, results⟩ := by
  by_cases h1 : sf.MinTime ≤ 0 ∧ sf.MaxTime > 0
  · refine ⟨1, sf.MaxTime, ?_, ?_, ?_, ?_, ?_⟩
    · intro _ _; exact ⟨rfl, rfl⟩
    · intro h _; omega
    · intro h _; omega
    · intro _ h; omega
    · simp only [search, Request.post, ne_eq, not_true_eq_false, if_false, hallow,
        Bool.not_true, Bool.false_eq_true, if_neg hsome, if_pos h1]
  · by_cases h2 : sf.MinTime > 0 ∧ sf.MaxTime ≤ 0
    · refine ⟨sf.MinTime, env.now, ?_, ?_, ?_, ?_, ?_⟩
      · intro h _; omega
      · intro _ _; exact ⟨rfl, rfl⟩
      · intro _ h; omega
      · intro h _; omega
      · simp only [search, Request.post, ne_eq, not_true_eq_false, if_false, hallow,
          Bool.not_true, Bool.false_eq_true, if_neg hsome, if_neg h1, if_pos h2]
    · refine ⟨sf.MinTime, sf.MaxTime, ?_, ?_, ?_, ?_, ?_⟩
      · intro h3 h4; exact absurd ⟨h3, h4⟩ h1
      · intro h3 h4; exact absurd ⟨h3, h4⟩ h2
      · intro _ _; exact ⟨rfl, rfl⟩
      · intro _ _; exact ⟨rfl, rfl⟩
      · simp only [search, Request.post, ne_eq, not_true_eq_false, if_false, hallow,
          Bool.not_true, Bool.false_eq_true, if_neg hsome, if_neg h1, if_neg h2]

/-- A run of C10 against a store that answers every search with two rows carrying the
arguments it was called with, the lower bound as the time of the first and the upper bound
as the time of the second: a search for the uploads of `alice` after time 100, at time 5000,
reaches the store with the bounds 100 and 5000. -/
theorem search_time_bounds_witness :
    search ⟨true, true, "/img"⟩
        { worldOf [] 5000 with
          Search := fun format uploader client lo hi =>
            some [⟨"lower", format, "", uploader, "", client, false, lo⟩,
                  ⟨"upper", format, "", uploader, "", client, false, hi⟩] }
        (Request.post "10.0.0.1" ⟨"", "alice", "", 100, 0⟩) =
      ⟨some ⟨"", "alice", "", 100, 5000⟩, 200,
        [⟨"lower", "", "", "alice", "", "", false, 100⟩,
         ⟨"upper", "", "", "alice", "", "", false, 5000⟩]⟩ := by
  obtain ⟨lo, hi, _, h2, _, _, hsearch⟩ :=
    search_time_bounds ⟨true, true, "/img"⟩
      { worldOf [] 5000 with
        Search := fun format uploader client lo hi =>
          some [⟨"lower", format, "", uploader, "", client, false, lo⟩,
                ⟨"upper", format, "", uploader, "", client, false, hi⟩] }
      "10.0.0.1" ⟨"", "alice", "", 100, 0⟩ rfl (by decide)
  obtain ⟨hlo, hhi⟩ := h2 (by decide) (by decide)
  rw [hsearch, hlo, hhi]
  rfl

/-! ## Rows and their blobs -/

/-- C9 as stated fails on the code, without any storage failure: `alice` inserts a PNG under
the name `a` with the format `b.png`, which writes `/img/a.b.png`, then a PNG under the name
`a.b`, which writes the same file, and then deletes `a.b`, which removes that file.  The row
of `a` stays and its blob `/img/a.b.png` is gone. -/
theorem delete_strands_row_sharing_path :
    runCalls ⟨true, true, "/img"⟩ State.empty
        [.insert (worldOf [("alice", "a1")] 1000)
          (Request.post "10.0.0.1" ⟨"iVBORw0KGgo=", "a", "b.png", "", "alice", "a1", false⟩),
         .insert (worldOf [("alice", "a1")] 2000)
          (Request.post "10.0.0.1" ⟨"iVBORw0KGgo=", "a.b", "", "", "alice", "a1", false⟩),
         .delete (worldOf [("alice", "a1")] 3000)
          (Request.post "10.0.0.1" ⟨"a.b", "alice", "a1"⟩)] =
      ⟨[⟨"a", "b.png", "png", "alice", "10.0.0.1", "Unknown Client", false, 1000⟩], []⟩ ∧
    rowsHaveBlobs ⟨true, true, "/img"⟩ resolvePath
      (runCalls ⟨true, true, "/img"⟩ State.empty
        [.insert (worldOf [("alice", "a1")] 1000)
          (Request.post "10.0.0.1" ⟨"iVBORw0KGgo=", "a", "b.png", "", "alice", "a1", false⟩),
         .insert (worldOf [("alice", "a1")] 2000)
          (Request.post "10.0.0.1" ⟨"iVBORw0KGgo=", "a.b", "", "", "alice", "a1", false⟩),
         .delete (worldOf [("alice", "a1")] 3000)
          (Request.post "10.0.0.1" ⟨"a.b", "alice", "a1"⟩)]) = false := by
  decide

theorem fileExists_putFile_self (files : List (String × Bytes)) (file : String)
    (data : Bytes) : fileExists (putFile files file data) file = true := by
  simp [fileExists, putFile]

theorem fileExists_putFile_of (files : List (String × Bytes)) (file other : String)
    (data : Bytes) (h : fileExists files other = true) :
    fileExists (putFile files file data) other = true := by
  by_cases hq : file = other
  · subst hq; exact fileExists_putFile_self files file data
  · simp only [fileExists, List.any_eq_true, beq_iff_eq] at h
    obtain ⟨f, hf, hfq⟩ := h
    simp only [fileExists, putFile, List.any_cons, Bool.or_eq_true, beq_iff_eq,
      List.any_eq_true, List.mem_filter]
    refine Or.inr ⟨f, ⟨hf, ?_⟩, hfq⟩
    simp only [ne_eq, decide_eq_true_eq, hfq]
    exact fun h => hq h.symm

/-- A call of `ioutil.WriteFile` removes no file, and after a call that succeeded the file
the path resolves to exists. -/
theorem WriteFile_spec (env : Env) (files : List (String × Bytes)) (path : String)
    (data : Bytes) :
    (∀ q, fileExists files q = true → fileExists (WriteFile env files path data).1 q = true) ∧
    ((WriteFile env files path data).2 = false →
      fileExists (WriteFile env files path data).1 (env.Resolve path) = true) := by
  unfold WriteFile
  cases env.WriteFile with
  | ok => exact ⟨fun q h => fileExists_putFile_of _ _ _ _ h,
      fun _ => fileExists_putFile_self _ _ _⟩
  | failed left =>
    cases left with
    | none => exact ⟨fun q h => h, fun h => by simp at h⟩
    | some written => exact ⟨fun q h => fileExists_putFile_of _ _ _ _ h, fun h => by simp at h⟩

theorem filesKept_refl (st : State) : FilesKept st st := fun _ h => h

theorem rowsBacked_refl (config : Config) (resolve : String → String) (st : State) :
    RowsBacked config resolve st st := fun e he => Or.inl ⟨e, he, rfl, rfl⟩

/-- Rows unchanged and no file lost: every row is still backed. -/
theorem rowsBacked_of_same_images (config : Config) (resolve : String → String)
    (st : State) (files : List (String × Bytes)) :
    RowsBacked config resolve st ⟨st.images, files⟩ := fun e he => Or.inl ⟨e, he, rfl, rfl⟩

/-- The second half of `insert` loses no file, and every row it leaves is a row it found or
has its blob: the row is written only after the blob. -/
theorem insertStore_step (config : Config) (env : Env) (st : State) (ip : String)
    (ifr : InsertForm) (w : ResponseWriter) :
    FilesKept st (insertStore config env st ip ifr w).1 ∧
      RowsBacked config env.Resolve st (insertStore config env st ip ifr w).1 := by
  have hW := WriteFile_spec env st.files (imagePath config ifr.ImageName ifr.ImageFormat)
  have hsame : FilesKept st st ∧ RowsBacked config env.Resolve st st :=
    ⟨filesKept_refl st, rowsBacked_refl config env.Resolve st⟩
  unfold insertStore
  simp only
  by_cases hc : GetOwner st.images ifr.ImageName ≠ "" ∧
      (GetOwner st.images ifr.ImageName ≠ ifr.Username ∨ ifr.Username = "anonymous")
  · simp only [if_pos hc]
    exact hsame
  · simp only [if_neg hc]
    cases hd : env.DecodeString ifr.Image with
    | none => exact hsame
    | some image =>
      simp only
      by_cases hm : (!HasPrefix (env.DetectContentType image) "image/") = true
      · simp only [if_pos hm]
        exact hsame
      · simp only [if_neg hm]
        obtain ⟨hmono, hnew⟩ := hW image
        rcases hwf : WriteFile env st.files (imagePath config ifr.ImageName ifr.ImageFormat)
          image with ⟨files, err⟩
        rw [hwf] at hmono hnew
        have hkeep : FilesKept st ⟨st.images, files⟩ ∧
            RowsBacked config env.Resolve st ⟨st.images, files⟩ :=
          ⟨hmono, rowsBacked_of_same_images config env.Resolve st files⟩
        cases err with
        | true => exact hkeep
        | false =>
          simp only
          by_cases hr : (!decide (GetOwner st.images ifr.ImageName ≠ "")) = true
          · simp only [if_pos hr]
            unfold dbInsert
            by_cases hf : env.InsertFails = true
            · simp only [if_pos hf]
              exact hkeep
            · simp only [if_neg hf]
              refine ⟨hmono, ?_⟩
              intro e he
              simp only [List.mem_append, List.mem_singleton] at he
              rcases he with he | rfl
              · exact Or.inl ⟨e, he, rfl, rfl⟩
              · exact Or.inr (hnew rfl)
          · simp only [if_neg hr]
            unfold dbUpdate
            by_cases hf : env.UpdateFails = true
            · simp only [if_pos hf]
              exact hkeep
            · simp only [if_neg hf]
              refine ⟨hmono, ?_⟩
              intro e he
              simp only [List.mem_map] at he
              obtain ⟨e0, he0, rfl⟩ := he
              by_cases hn : e0.ImageName = ifr.ImageName
              · simp only [if_pos hn]
                refine Or.inr ?_
                simp only [blobExists, hn]
                exact hnew rfl
              · simp only [if_neg hn]
                exact Or.inl ⟨e0, he0, rfl, rfl⟩

/-- The handler `insert` loses no file, and every row it leaves is a row it found or has its
blob, whatever fails on the way. -/
theorem insert_step (config : Config) (env : Env) (st : State) (r : Request InsertForm) :
    FilesKept st (insert config env st r).1 ∧
      RowsBacked config env.Resolve st (insert config env st r).1 := by
  have hsame : FilesKept st st ∧ RowsBacked config env.Resolve st st :=
    ⟨filesKept_refl st, rowsBacked_refl config env.Resolve st⟩
  unfold insert
  simp only
  repeat' split
  all_goals first
    | exact hsame
    | exact insertStore_step _ _ _ _ _ _

/-- The handler `hide` leaves the files alone, and the rows keep their names and formats. -/
theorem hide_step (config : Config) (resolve : String → String) (env : Env) (st : State)
    (r : Request HideForm) :
    FilesKept st (hide env st r).1 ∧ RowsBacked config resolve st (hide env st r).1 := by
  have hsame : FilesKept st st ∧ RowsBacked config resolve st st :=
    ⟨filesKept_refl st, rowsBacked_refl config resolve st⟩
  have hset : ∀ name hidden images, dbSetHidden env st.images name hidden = some images →
      FilesKept st ⟨images, st.files⟩ ∧ RowsBacked config resolve st ⟨images, st.files⟩ := by
    intro name hidden images hdb
    unfold dbSetHidden at hdb
    split at hdb
    · exact absurd hdb (by simp)
    · simp only [Option.some.injEq] at hdb
      subst hdb
      refine ⟨fun _ h => h, ?_⟩
      intro e he
      simp only [List.mem_map] at he
      obtain ⟨e0, he0, rfl⟩ := he
      refine Or.inl ⟨e0, he0, ?_, ?_⟩ <;> split <;> rfl
  unfold hide
  simp only
  repeat' split
  all_goals first
    | exact hsame
    | exact hset _ _ _ (by assumption)

/-- The handler `delete` leaves no row that was not there before. -/
theorem delete_step (config : Config) (resolve : String → String) (env : Env) (st : State)
    (r : Request DeleteForm) :
    RowsBacked config resolve st (delete config env st r).1 := by
  have hsame : RowsBacked config resolve st st := rowsBacked_refl config resolve st
  have hrows : ∀ name images files, dbRemove env st.images name = some images →
      RowsBacked config resolve st ⟨images, files⟩ := by
    intro name images files hdb
    unfold dbRemove at hdb
    split at hdb
    · exact absurd hdb (by simp)
    · simp only [Option.some.injEq] at hdb
      subst hdb
      intro e he
      exact Or.inl ⟨e, (List.mem_filter.mp he).1, rfl, rfl⟩
  unfold delete
  simp only
  repeat' split
  all_goals first
    | exact hsame
    | exact hrows _ _ _ (by assumption)

/-- One call, in a file system that resolves paths by `resolve`: every row it leaves is a
row it found or has its blob, and unless it is a delete request it loses no file. -/
theorem call_next_step (config : Config) (resolve : String → String) (st : State) (c : Call)
    (hres : c.env.Resolve = resolve) :
    RowsBacked config resolve st (Call.next config st c) ∧
      (c.isDelete = false → FilesKept st (Call.next config st c)) := by
  cases c with
  | insert env r =>
    subst hres
    exact ⟨(insert_step config env st r).2, fun _ => (insert_step config env st r).1⟩
  | hide env r =>
    exact ⟨(hide_step config resolve env st r).2, fun _ => (hide_step config resolve env st r).1⟩
  | delete env r =>
    exact ⟨delete_step config resolve env st r, fun h => absurd h (by simp [Call.isDelete])⟩

theorem runCalls_append_singleton (config : Config) (st : State) (calls : List Call)
    (c : Call) :
    runCalls config st (calls ++ [c]) = Call.next config (runCalls config st calls) c := by
  simp [runCalls, List.foldl_append]

/-- Along a run, the blob of a name and format that some row carries is missing only if a
delete request of the run removed that file. -/
theorem lost_blob_was_deleted (config : Config) (resolve : String → String)
    (calls : List Call) (hres : ∀ c ∈ calls, c.env.Resolve = resolve) (name format : String)
    (hrow : ∃ e ∈ (runCalls config State.empty calls).images,
      e.ImageName = name ∧ e.Format = format)
    (hmiss : blobExists config resolve (runCalls config State.empty calls) name format = false) :
    ∃ before c after, calls = before ++ c :: after ∧ c.isDelete = true ∧
      blobExists config resolve (runCalls config State.empty before) name format = true ∧
      blobExists config resolve (runCalls config State.empty (before ++ [c])) name format =
        false := by
  induction calls using List.reverseRecOn with
  | nil =>
    obtain ⟨e, he, _⟩ := hrow
    exact absurd he (List.not_mem_nil e)
  | append_singleton calls c ih =>
    have hstep := call_next_step config resolve (runCalls config State.empty calls) c
      (hres c (by simp))
    rw [runCalls_append_singleton] at hrow hmiss
    obtain ⟨e, he, rfl, rfl⟩ := hrow
    rcases hstep.1 e he with ⟨e0, he0, hn, hf⟩ | hblob
    · by_cases hbefore : blobExists config resolve (runCalls config State.empty calls)
          e.ImageName e.Format = true
      · refine ⟨calls, c, [], rfl, ?_, hbefore, ?_⟩
        · by_contra hnd
          have hkept := hstep.2 (by simpa using hnd) _ hbefore
          simp only [blobExists] at hmiss
          rw [hkept] at hmiss
          exact absurd hmiss (by simp)
        · rw [runCalls_append_singleton]
          exact hmiss
      · obtain ⟨before, d, after, hsplit, hd, h1, h2⟩ :=
          ih (fun d hd => hres d (by simp [hd])) ⟨e0, he0, hn, hf⟩ (by simpa using hbefore)
        exact ⟨before, d, after ++ [c], by simp [hsplit], hd, h1, h2⟩
    · rw [hblob] at hmiss
      exact absurd hmiss (by simp)

/-- C9, amended: in a state reached from the empty state by any sequence of insert, hide and
delete requests, whatever storage call fails on the way, a row lacks the blob at the path made
of its name and format only if a delete request of the sequence removed that very file: the
file was there before that request and gone after it.  Insert and hide requests, successful
or failed, never leave a row without its blob.  Paths are compared as the file system
resolves them, in the same way during the whole run. -/
theorem row_without_blob_lost_it_to_delete (config : Config) (resolve : String → String)
    (calls : List Call) (hres : ∀ c ∈ calls, c.env.Resolve = resolve) (e : ImageEntry)
    (he : e ∈ (runCalls config State.empty calls).images)
    (hmiss : blobExists config resolve (runCalls config State.empty calls)
      e.ImageName e.Format = false) :
    ∃ before c after, calls = before ++ c :: after ∧ c.isDelete = true ∧
      blobExists config resolve (runCalls config State.empty before)
        e.ImageName e.Format = true ∧
      blobExists config resolve (runCalls config State.empty (before ++ [c]))
        e.ImageName e.Format = false :=
  lost_blob_was_deleted config resolve calls hres e.ImageName e.Format ⟨e, he, rfl, rfl⟩ hmiss

/-- A run of the amended C9: `alice` inserts `abc`; `bob` inserts `./abc`, which is free and
whose path `/img/./abc.png` is the file `/img/abc.png`, and deletes it again.  The row of
`alice` is left without its blob, and the request that removed the file is the delete. -/
theorem row_without_blob_lost_it_to_delete_witness :
    (⟨"abc", "png", "png", "alice", "10.0.0.1", "Unknown Client", false, 1000⟩ : ImageEntry) ∈
      (runCalls ⟨true, true, "/img"⟩ State.empty
        [Call.insert (worldOf [("alice", "a1")] 1000)
          (Request.post "10.0.0.1" ⟨"iVBORw0KGgo=", "abc", "", "", "alice", "a1", false⟩),
         Call.insert (worldOf [("bob", "t1")] 2000)
          (Request.post "10.0.0.2" ⟨"/9j/4A==", "./abc", "", "", "bob", "t1", false⟩),
         Call.delete (worldOf [("bob", "t1")] 3000)
          (Request.post "10.0.0.2" ⟨"./abc", "bob", "t1"⟩)]).images ∧
    blobExists ⟨true, true, "/img"⟩ resolvePath
      (runCalls ⟨true, true, "/img"⟩ State.empty
        [Call.insert (worldOf [("alice", "a1")] 1000)
          (Request.post "10.0.0.1" ⟨"iVBORw0KGgo=", "abc", "", "", "alice", "a1", false⟩),
         Call.insert (worldOf [("bob", "t1")] 2000)
          (Request.post "10.0.0.2" ⟨"/9j/4A==", "./abc", "", "", "bob", "t1", false⟩),
         Call.delete (worldOf [("bob", "t1")] 3000)
          (Request.post "10.0.0.2" ⟨"./abc", "bob", "t1"⟩)]) "abc" "png" = false ∧
    ∃ before c after,
      [Call.insert (worldOf [("alice", "a1")] 1000)
          (Request.post "10.0.0.1" ⟨"iVBORw0KGgo=", "abc", "", "", "alice", "a1", false⟩),
         Call.insert (worldOf [("bob", "t1")] 2000)
          (Request.post "10.0.0.2" ⟨"/9j/4A==", "./abc", "", "", "bob", "t1", false⟩),
         Call.delete (worldOf [("bob", "t1")] 3000)
          (Request.post "10.0.0.2" ⟨"./abc", "bob", "t1"⟩)] = before ++ c :: after ∧
      c.isDelete = true ∧
      blobExists ⟨true, true, "/img"⟩ resolvePath
        (runCalls ⟨true, true, "/img"⟩ State.empty before) "abc" "png" = true ∧
      blobExists ⟨true, true, "/img"⟩ resolvePath
        (runCalls ⟨true, true, "/img"⟩ State.empty (before ++ [c])) "abc" "png" = false :=
  ⟨by decide, by decide,
    row_without_blob_lost_it_to_delete ⟨true, true, "/img"⟩ resolvePath _
      (by
        intro c hc
        simp only [List.mem_cons, List.mem_singleton, List.not_mem_nil, or_false] at hc
        rcases hc with rfl | rfl | rfl <;> rfl)
      ⟨"abc", "png", "png", "alice", "10.0.0.1", "Unknown Client", false, 1000⟩
      (by decide) (by decide)⟩

/-! ## Hiding twice -/

/-- Changing rows without touching their name or owner leaves the owner of every name. -/
theorem GetOwner_map (images : List ImageEntry) (f : ImageEntry → ImageEntry) (name : String)
    (hname : ∀ e, (f e).ImageName = e.ImageName) (hadder : ∀ e, (f e).Adder = e.Adder) :
    GetOwner (images.map f) name = GetOwner images name := by
  induction images with
  | nil => rfl
  | cons e rest ih =>
    unfold GetOwner at ih ⊢
    simp only [List.map_cons, List.find?_cons, hname]
    cases e.ImageName == name with
    | true => exact hadder e
    | false => exact ih

/-- A hide request of the verified owner, when `database.SetHidden` does not fail: the rows
of that name get the requested flag, the files stay, and the answer is `hidden` or
`unhidden` after the flag, with status 202. -/
theorem hide_by_owner (env : Env) (st : State) (ip : String) (hfr : HideForm)
    (hname : hfr.ImageName ≠ "") (huser : hfr.Username ≠ "") (htok : hfr.AuthToken ≠ "")
    (hcheck : env.CheckAuthToken hfr.Username hfr.AuthToken = true)
    (howner : GetOwner st.images hfr.ImageName = hfr.Username)
    (hok : env.SetHiddenFails = false) :
    hide env st (Request.post ip hfr) =
      (⟨st.images.map fun e =>
          if e.ImageName = hfr.ImageName then { e with Hidden := hfr.Hidden } else e,
        st.files⟩,
       ⟨some 202, [⟨true, if hfr.Hidden then "hidden" else "unhidden",
        "The image " ++ hfr.ImageName ++ " was successfully " ++
          (if hfr.Hidden then "hidden" else "unhidden") ++ "."⟩]⟩) := by
  simp [hide, Request.post, hname, huser, htok, hcheck, howner, dbSetHidden, hok, output_new]

/-- C11: a hide request of the verified owner of an existing image, when the metadata call
does not fail, is answered with status 202 and `hidden` when the requested flag is true,
`unhidden` when it is false, whatever the flag of the image was before; and the same request
sent again, run on the resulting state, gets the same answer and leaves that state as it
is. -/
theorem hide_status_follows_flag_and_repeats (env env2 : Env) (st : State) (ip ip2 : String)
    (hfr : HideForm)
    (hname : hfr.ImageName ≠ "") (huser : hfr.Username ≠ "") (htok : hfr.AuthToken ≠ "")
    (howner : GetOwner st.images hfr.ImageName = hfr.Username)
    (hcheck : env.CheckAuthToken hfr.Username hfr.AuthToken = true)
    (hok : env.SetHiddenFails = false)
    (hcheck2 : env2.CheckAuthToken hfr.Username hfr.AuthToken = true)
    (hok2 : env2.SetHiddenFails = false) :
    (hide env st (Request.post ip hfr)).2 =
        ⟨some 202, [⟨true, if hfr.Hidden then "hidden" else "unhidden",
          "The image " ++ hfr.ImageName ++ " was successfully " ++
            (if hfr.Hidden then "hidden" else "unhidden") ++ "."⟩]⟩ ∧
      hide env2 (hide env st (Request.post ip hfr)).1 (Request.post ip2 hfr) =
        ((hide env st (Request.post ip hfr)).1,
          ⟨some 202, [⟨true, if hfr.Hidden then "hidden" else "unhidden",
            "The image " ++ hfr.ImageName ++ " was successfully " ++
              (if hfr.Hidden then "hidden" else "unhidden") ++ "."⟩]⟩) := by
  have hfirst := hide_by_owner env st ip hfr hname huser htok hcheck howner hok
  have hset : ∀ e : ImageEntry,
      ((fun e : ImageEntry =>
          if e.ImageName = hfr.ImageName then { e with Hidden := hfr.Hidden } else e) e).ImageName
        = e.ImageName := by
    intro e
    simp only
    split <;> rfl
  have hadder : ∀ e : ImageEntry,
      ((fun e : ImageEntry =>
          if e.ImageName = hfr.ImageName then { e with Hidden := hfr.Hidden } else e) e).Adder
        = e.Adder := by
    intro e
    simp only
    split <;> rfl
  have howner2 : GetOwner (hide env st (Request.post ip hfr)).1.images hfr.ImageName =
      hfr.Username := by
    rw [hfirst]
    exact (GetOwner_map st.images _ hfr.ImageName hset hadder).trans howner
  have hsecond := hide_by_owner env2 (hide env st (Request.post ip hfr)).1 ip2 hfr hname huser
    htok hcheck2 howner2 hok2
  refine ⟨by rw [hfirst], ?_⟩
  rw [hsecond]
  congr 1
  rw [hfirst]
  simp only [List.map_map, State.mk.injEq, and_true]
  apply List.map_congr_left
  intro e _
  simp only [Function.comp]
  split <;> simp_all

/-- A run of C11: `alice` hides her image `abc`, which was hidden already, twice; both
answers are `hidden` and the state is the same after each. -/
theorem hide_status_follows_flag_and_repeats_witness :
    (hide (worldOf [("alice", "a1")] 2000)
        ⟨[⟨"abc", "png", "png", "alice", "10.0.0.1", "Unknown Client", true, 1000⟩,
          ⟨"xyz", "png", "png", "bob", "10.0.0.2", "Unknown Client", false, 1500⟩],
         [("/img/abc.png", [137, 80, 78, 71, 13, 10, 26, 10])]⟩
        (Request.post "10.0.0.1" ⟨"abc", true, "alice", "a1"⟩)).2 =
      ⟨some 202, [⟨true, "hidden", "The image abc was successfully hidden."⟩]⟩ ∧
    hide (worldOf [("alice", "a1")] 3000)
        (hide (worldOf [("alice", "a1")] 2000)
          ⟨[⟨"abc", "png", "png", "alice", "10.0.0.1", "Unknown Client", true, 1000⟩,
            ⟨"xyz", "png", "png", "bob", "10.0.0.2", "Unknown Client", false, 1500⟩],
           [("/img/abc.png", [137, 80, 78, 71, 13, 10, 26, 10])]⟩
          (Request.post "10.0.0.1" ⟨"abc", true, "alice", "a1"⟩)).1
        (Request.post "10.0.0.9" ⟨"abc", true, "alice", "a1"⟩) =
      ((hide (worldOf [("alice", "a1")] 2000)
          ⟨[⟨"abc", "png", "png", "alice", "10.0.0.1", "Unknown Client", true, 1000⟩,
            ⟨"xyz", "png", "png", "bob", "10.0.0.2", "Unknown Client", false, 1500⟩],
           [("/img/abc.png", [137, 80, 78, 71, 13, 10, 26, 10])]⟩
          (Request.post "10.0.0.1" ⟨"abc", true, "alice", "a1"⟩)).1,
        ⟨some 202, [⟨true, "hidden", "The image abc was successfully hidden."⟩]⟩) :=
  hide_status_follows_flag_and_repeats (worldOf [("alice", "a1")] 2000)
    (worldOf [("alice", "a1")] 3000) _ "10.0.0.1" "10.0.0.9" ⟨"abc", true, "alice", "a1"⟩
    (by decide) (by decide) (by decide) (by decide) (by decide) rfl (by decide) rfl

end MauImageServer
